import Mathlib

/-!
Shallow embedding of the `irrigation-ha` Home Assistant integration
(`custom_components/irrigation/`), covering:

* `switch.py` — `_run_irrigationctl`, `IrrigationZone` (turn_on / turn_off /
  `_countdown`), `IrrigationZoneSensor.extra_state_attributes`;
* `light.py` — `IrrigationZoneLight` (`_build_command`, `_send_command`,
  `async_turn_on`, `async_turn_on_with_duration`, `async_turn_off`,
  the `_tick_remaining` and `_auto_off` inner coroutines);
* `config_flow.py` — `IrrigationConfigFlow.async_step_user` and the zone
  loop of `switch.py`'s `async_setup_entry`.

Network and subprocess I/O is represented by explicit outcome values passed
to the operations; each operation returns its successor state together with
the list of wire commands it sent (strings handed to `irrigationctl` or
written to the daemon socket).  Python float arithmetic in
`light.py:async_turn_on` is modelled by an exact integer embedding of
IEEE-754 binary64 rounding (`flRat` below).
-/

set_option maxRecDepth 8192

/-- Python `str.startswith`: code-point prefix test. -/
def pystartswith (s p : String) : Bool :=
  p.data.isPrefixOf s.data

/-- Python `str.strip()`: drop leading and trailing whitespace. -/
def pystrip (s : String) : String :=
  ⟨((s.data.dropWhile Char.isWhitespace).reverse.dropWhile Char.isWhitespace).reverse⟩

/-! ## IEEE-754 binary64 model (exact integer arithmetic)

`light.py:async_turn_on` computes `duration = int((brightness / 255) *
self._default_duration)` in double precision: one correctly rounded
division, one correctly rounded multiplication, then truncation.  A
nonnegative binary64 value is a dyadic rational `s * 2 ^ E` with a 53-bit
significand `s`; we model the correctly rounded value of a fraction `a / b`
as such a pair and keep every step in `ℕ`/`ℤ` so all concrete instances
reduce in the kernel. -/

/-- Kernel-reducible floor of `log2`, with explicit fuel. -/
def log2floorAux : ℕ → ℕ → ℕ
  | 0, _ => 0
  | fuel + 1, n => if 2 ≤ n then log2floorAux fuel (n / 2) + 1 else 0

/-- The value `log2floor n` is the unique `k` with `2 ^ k ≤ n < 2 ^ (k + 1)` (for `n ≥ 1`). -/
def log2floor (n : ℕ) : ℕ := log2floorAux n n

/-- Round the fraction `a / b` (for `b ≠ 0`) to the nearest natural number,
ties to even. -/
def rndNat (a b : ℕ) : ℕ :=
  let q := a / b
  let r := a % b
  if 2 * r < b then q
  else if b < 2 * r then q + 1
  else if q % 2 = 0 then q else q + 1

/-- Binary exponent of the positive fraction `a / b`:
the `e` with `2 ^ e ≤ a / b < 2 ^ (e + 1)`. -/
def fracExp (a b : ℕ) : ℤ :=
  let c : ℤ := (log2floor a : ℤ) - (log2floor b : ℤ)
  let ok : Bool := if 0 ≤ c then b * 2 ^ c.toNat ≤ a else b ≤ a * 2 ^ (-c).toNat
  if ok then c else c - 1

/-- IEEE-754 binary64 rounding (round-to-nearest, ties-to-even) of the
nonnegative fraction `a / b`, as a dyadic pair `(s, E)` meaning `s * 2 ^ E`.
Exponent range is unbounded (no overflow/subnormals — irrelevant for the
magnitudes appearing in this program). -/
def flRat (a b : ℕ) : ℕ × ℤ :=
  if a = 0 then (0, 0)
  else
    let e := fracExp a b
    let s := if e ≤ 52 then rndNat (a * 2 ^ (52 - e).toNat) b
             else rndNat a (b * 2 ^ (e - 52).toNat)
    (s, e - 52)

/-- Embedding of `int((brightness / 255) * default_duration)` from
`light.py:async_turn_on`, under exact binary64 semantics:
round `brightness / 255`, multiply exactly by `default_duration`,
round again, truncate. -/
def lightDuration (brightness default_duration : ℕ) : ℕ :=
  let t1 := flRat brightness 255
  let a2 : ℕ := if 0 ≤ t1.2 then t1.1 * default_duration * 2 ^ t1.2.toNat
                else t1.1 * default_duration
  let b2 : ℕ := if 0 ≤ t1.2 then 1 else 2 ^ (-t1.2).toNat
  let t2 := flRat a2 b2
  if 0 ≤ t2.2 then t2.1 * 2 ^ t2.2.toNat else t2.1 / 2 ^ (-t2.2).toNat

/-! ## `switch.py` — subprocess protocol client -/

/-- Outcome of the `subprocess.run` call inside `_run_irrigationctl`:
either the process completed (with exit code, stdout, stderr) or an
exception was raised (timeout, missing binary, ...). -/
inductive SubprocessOutcome where
  | completed (returncode : ℤ) (stdout stderr : String)
  | raised (msg : String)
deriving DecidableEq

/-- The command-line argument `_run_irrigationctl` passes to
`/usr/local/bin/irrigationctl`: `f"ZONE={zone} TIME={time}"`. -/
def irrigationctl_cmd (zone time : ℕ) : String :=
  "ZONE=" ++ toString zone ++ " TIME=" ++ toString time

/-- Result classification of `_run_irrigationctl` (switch.py lines 32-44):
`True` iff the subprocess completed with exit code 0; every exception is
caught and yields `False`. -/
def run_irrigationctl (outcome : SubprocessOutcome) : Bool :=
  match outcome with
  | .completed returncode _ _ => !(returncode != 0)
  | .raised _ => false

/-! ## `switch.py` — `IrrigationZone` switch entity

`self._cancel_task` holds at most one countdown-task handle; we give tasks
numeric ids (`next_task` is the id generator) so cancellation is
observable.  Every operation returns the commands it sent. -/

structure IrrigationZone where
  zone : ℕ
  default_duration : ℕ
  is_on : Bool
  remaining : ℕ
  duration : ℕ
  cancel_task : Option ℕ
  next_task : ℕ
deriving DecidableEq

/-- Constructor `IrrigationZone.__init__` (switch.py lines 78-88). -/
def IrrigationZone.init (zone default_duration : ℕ) : IrrigationZone :=
  { zone := zone, default_duration := default_duration, is_on := false,
    remaining := 0, duration := default_duration, cancel_task := none,
    next_task := 0 }

/-- Method `IrrigationZone.turn_on` (switch.py lines 101-114): run `irrigationctl`
with the requested (or default) duration; only on success mark on, reset the
countdown, cancel any old countdown task and install a new one. -/
def IrrigationZone.turn_on (z : IrrigationZone) (kw_duration : Option ℕ)
    (outcome : SubprocessOutcome) : IrrigationZone × List String :=
  let duration := kw_duration.getD z.default_duration
  let cmd := irrigationctl_cmd z.zone duration
  if run_irrigationctl outcome then
    ({ z with is_on := true, remaining := duration, duration := duration,
              cancel_task := some z.next_task, next_task := z.next_task + 1 },
     [cmd])
  else (z, [cmd])

/-- Method `IrrigationZone.turn_off` (switch.py lines 116-125): send `TIME=1`;
only on success mark off, clear the countdown and cancel the task. -/
def IrrigationZone.turn_off (z : IrrigationZone)
    (outcome : SubprocessOutcome) : IrrigationZone × List String :=
  let cmd := irrigationctl_cmd z.zone 1
  if run_irrigationctl outcome then
    ({ z with is_on := false, remaining := 0, cancel_task := none }, [cmd])
  else (z, [cmd])

/-- One iteration of the `while self._remaining > 0` loop body of
`IrrigationZone._countdown` (switch.py lines 129-135): decrement once,
push a state update only when the new remaining is a multiple of 5 or has
reached 0.  Second component of the inner pair: was an update pushed?
No wire command is sent. -/
def IrrigationZone.countdown_tick (z : IrrigationZone) :
    (IrrigationZone × Bool) × List String :=
  if 0 < z.remaining then
    let r := z.remaining - 1
    (({ z with remaining := r }, (r % 5 == 0) || (r == 0)), [])
  else ((z, false), [])

/-- Loop exit of `IrrigationZone._countdown` plus its `finally` block
(switch.py lines 136-143): mark off, clear the task handle; no wire
command is sent. -/
def IrrigationZone.countdown_exit (z : IrrigationZone) :
    IrrigationZone × List String :=
  ({ z with is_on := false, cancel_task := none }, [])

/-! ## `switch.py` — `IrrigationZoneSensor`

The sensor's percentage is computed in binary64: `rem / dur` is one
correctly rounded division, `* 100` one correctly rounded multiplication,
and Python `round(pct, 1)` rounds the resulting double to the nearest
multiple of `1 / 10` (on the exact value of the double; a double is dyadic
and `1 / 20` is not, so this step never ties) and returns the double
nearest to that decimal.  Everything is kept in dyadic-pair form `(s, E)`
(value `s * 2 ^ E`) so concrete instances reduce in the kernel. -/

/-- Binary64 product of a nonnegative double `(s, E)` with an exact
natural factor `m`: one correctly rounded multiplication. -/
def flMulNat (t : ℕ × ℤ) (m : ℕ) : ℕ × ℤ :=
  if 0 ≤ t.2 then flRat (t.1 * m * 2 ^ t.2.toNat) 1
  else flRat (t.1 * m) (2 ^ (-t.2).toNat)

/-- Ten times a nonnegative double `(s, E)`, rounded to the nearest
integer (ties to even, which cannot occur for a dyadic input): the
integer `k` such that `k / 10` is the decimal Python `round(x, 1)`
selects. -/
def decTimes10 (t : ℕ × ℤ) : ℕ :=
  if 0 ≤ t.2 then t.1 * 10 * 2 ^ t.2.toNat
  else rndNat (t.1 * 10) (2 ^ (-t.2).toNat)

/-- Python `round(x, 1)` on a nonnegative double: the double nearest to
`decTimes10 x / 10`. -/
def pyround1 (t : ℕ × ℤ) : ℕ × ℤ :=
  flRat (decTimes10 t) 10

/-- Exact rational value of a nonnegative dyadic pair. -/
def dyadicToRat (t : ℕ × ℤ) : ℚ :=
  (t.1 : ℚ) * (2 : ℚ) ^ t.2

/-- The dictionary returned by
`IrrigationZoneSensor.extra_state_attributes` (switch.py lines 164-173);
`progress_percent` is the reported binary64 value as a dyadic pair. -/
structure ZoneSensorAttributes where
  duration : ℕ
  remaining : ℕ
  progress_percent : ℕ × ℤ
deriving DecidableEq

/-- Round a rational to the nearest integer, ties to even.  This is the
spec-side exact rounding, used only to state what the claim's phrase
"rounded to one decimal place" means over exact arithmetic; the code's
own rounding is `pyround1` above. -/
def roundHalfEvenInt (q : ℚ) : ℤ :=
  let f := ⌊q⌋
  let r := q - (f : ℚ)
  if r < 1 / 2 then f
  else if 1 / 2 < r then f + 1
  else if f % 2 = 0 then f else f + 1

/-- Spec-side exact rounding to one decimal place (ties to even), for
comparison against the code's binary64 computation. -/
def round1 (q : ℚ) : ℚ :=
  (roundHalfEvenInt (q * 10) : ℚ) / 10

/-- Property `IrrigationZoneSensor.extra_state_attributes` (switch.py lines
164-173), reading the linked switch's private fields:
`pct = (rem / dur * 100) if dur > 0 else 0` in binary64, reported as
`round(pct, 1)`. -/
def IrrigationZoneSensor.extra_state_attributes (z : IrrigationZone) :
    ZoneSensorAttributes :=
  let dur := z.duration
  let rem := z.remaining
  let pct : ℕ × ℤ := if 0 < dur then flMulNat (flRat rem dur) 100 else (0, 0)
  { duration := dur, remaining := rem, progress_percent := pyround1 pct }

/-! ## `light.py` — socket protocol client and `IrrigationZoneLight`

The light entity never stores a task handle: each successful start creates
a fresh `_tick_remaining` task (`tick_tasks` counts the ones created and
still in their loop) and schedules a fresh `_auto_off` callback
(`auto_off_timers` counts pending ones).  The code contains no cancellation
of either. -/

/-- Outcome of the socket exchange inside `_send_command`: either a reply
was received or some exception (connection refused, timeout, reset, ...)
was raised. -/
inductive SocketOutcome where
  | reply (data : String)
  | raised (msg : String)
deriving DecidableEq

/-- Method `IrrigationZoneLight._send_command` (light.py lines 84-98): return the
stripped reply text; every exception is caught and reported as the string
`"ERR {e}"`. -/
def send_command (outcome : SocketOutcome) : String :=
  match outcome with
  | .reply data => pystrip data
  | .raised e => "ERR " ++ e

structure IrrigationZoneLight where
  zone : ℕ
  default_duration : ℕ
  token : Option String
  is_on : Bool
  remaining : ℕ
  duration : ℕ
  brightness : ℕ
  tick_tasks : ℕ
  auto_off_timers : ℕ
deriving DecidableEq

/-- Constructor `IrrigationZoneLight.__init__` (light.py lines 24-43). -/
def IrrigationZoneLight.init (zone default_duration : ℕ)
    (token : Option String) : IrrigationZoneLight :=
  { zone := zone, default_duration := default_duration, token := token,
    is_on := false, remaining := 0, duration := default_duration,
    brightness := 0, tick_tasks := 0, auto_off_timers := 0 }

/-- Method `IrrigationZoneLight._build_command` (light.py lines 78-82). -/
def IrrigationZoneLight.build_command (l : IrrigationZoneLight)
    (zone seconds : ℕ) : String :=
  match l.token with
  | some t => "ZONE=" ++ toString zone ++ " TIME=" ++ toString seconds
                ++ " TOKEN=" ++ t
  | none => "ZONE=" ++ toString zone ++ " TIME=" ++ toString seconds

/-- Method `IrrigationZoneLight.async_turn_on_with_duration` (light.py lines
109-149): send the command; if the response starts with `OK`, mark on,
reset countdown/brightness, create a fresh `_tick_remaining` task and
schedule a fresh `_auto_off` callback — without cancelling any existing
ones.  On any other response only a warning is logged. -/
def IrrigationZoneLight.async_turn_on_with_duration (l : IrrigationZoneLight)
    (duration : ℕ) (net : SocketOutcome) : IrrigationZoneLight × List String :=
  let cmd := l.build_command l.zone duration
  let response := send_command net
  if pystartswith response "OK" then
    ({ l with is_on := true, remaining := duration, duration := duration,
              brightness := 255, tick_tasks := l.tick_tasks + 1,
              auto_off_timers := l.auto_off_timers + 1 },
     [cmd])
  else (l, [cmd])

/-- Method `IrrigationZoneLight.async_turn_on` (light.py lines 100-107):
brightness defaults to 255; duration is the truncated binary64 product
`int((brightness / 255) * self._default_duration)`. -/
def IrrigationZoneLight.async_turn_on (l : IrrigationZoneLight)
    (kw_brightness : Option ℕ) (net : SocketOutcome) :
    IrrigationZoneLight × List String :=
  let brightness := kw_brightness.getD 255
  let duration := lightDuration brightness l.default_duration
  l.async_turn_on_with_duration duration net

/-- Method `IrrigationZoneLight.async_turn_off` (light.py lines 151-161): send
`TIME=0`; only when the response starts with `OK` mark off and clear the
countdown.  Otherwise only a warning is logged. -/
def IrrigationZoneLight.async_turn_off (l : IrrigationZoneLight)
    (net : SocketOutcome) : IrrigationZoneLight × List String :=
  let cmd := l.build_command l.zone 0
  let response := send_command net
  if pystartswith response "OK" then
    ({ l with is_on := false, remaining := 0, brightness := 0 }, [cmd])
  else (l, [cmd])

/-- One iteration of the `_tick_remaining` loop (light.py lines 122-133),
single-task view: under the loop guard `remaining > 0 and is_on`,
decrement once, recompute brightness, and always push a state update
(`async_write_ha_state`).  Second component of the inner pair: was an
update pushed?  No wire command is sent.  (The inner brightness division
is modelled exactly; its float error cannot change the claims below.) -/
def IrrigationZoneLight.tick (l : IrrigationZoneLight) :
    (IrrigationZoneLight × Bool) × List String :=
  if 0 < l.remaining ∧ l.is_on = true then
    if l.is_on then
      let r := l.remaining - 1
      let br := if 0 < l.duration then r * 255 / l.duration else 0
      (({ l with remaining := r, brightness := br }, true), [])
    else ((l, false), [])
  else ((l, false), [])

/-- The `_auto_off` callback (light.py lines 138-147): if still on, mark
off and clear countdown/brightness; no wire command is sent. -/
def IrrigationZoneLight.auto_off (l : IrrigationZoneLight) :
    IrrigationZoneLight × List String :=
  if l.is_on then
    ({ l with is_on := false, remaining := 0, brightness := 0 }, [])
  else (l, [])

/-! ## `config_flow.py` — `async_step_user`, and the zone loop of
`switch.py:async_setup_entry` -/

/-- The form fields of `IrrigationConfigFlow.async_step_user`; optional
fields carry the schema defaults when absent. -/
structure FlowInput where
  name : Option String
  host : String
  port : ℤ
  zones : Option ℤ
  default_duration : Option ℤ
deriving DecidableEq

/-- The data stored into the created config entry. -/
structure EntryData where
  name : String
  host : String
  port : ℤ
  zones : ℤ
  default_duration : ℤ
deriving DecidableEq

/-- Result of a config-flow step. -/
inductive FlowResult where
  | create_entry (title : String) (data : EntryData)
  | show_form (step_id : String)
deriving DecidableEq

/-- Method `IrrigationConfigFlow.async_step_user` (config_flow.py lines 215-238):
with user input present, unconditionally create the entry — no validation
of any field. -/
def async_step_user (user_input : Option FlowInput) : FlowResult :=
  match user_input with
  | some u =>
      let entry_data : EntryData :=
        { name := u.name.getD "Irrigation Controller", host := u.host,
          port := u.port, zones := u.zones.getD 14,
          default_duration := u.default_duration.getD 300 }
      .create_entry entry_data.name entry_data
  | none => .show_form "user"

/-- The zone numbers `switch.py:async_setup_entry` (lines 57-62) builds
entities for: Python `range(1, zones + 1)`. -/
def setup_zone_numbers (zones : ℤ) : List ℤ :=
  (List.range zones.toNat).map (fun i : ℕ => (i : ℤ) + 1)

/-! ## Helper lemmas -/

theorem log2floorAux_spec : ∀ fuel n : ℕ, 1 ≤ n → n ≤ fuel →
    2 ^ log2floorAux fuel n ≤ n ∧ n < 2 ^ (log2floorAux fuel n + 1) := by
  intro fuel
  induction fuel with
  | zero => intro n h1 h2; omega
  | succ fuel ih =>
    intro n h1 h2
    rw [log2floorAux]
    by_cases h : 2 ≤ n
    · rw [if_pos h]
      have hm1 : 1 ≤ n / 2 := (Nat.one_le_div_iff (by norm_num)).mpr h
      have hm2 : n / 2 ≤ fuel := by
        have : n / 2 < n := Nat.div_lt_self (by omega) (by norm_num)
        omega
      obtain ⟨ha, hb⟩ := ih (n / 2) hm1 hm2
      have hp1 : 2 ^ (log2floorAux fuel (n / 2) + 1)
          = 2 * 2 ^ log2floorAux fuel (n / 2) := by ring
      have hp2 : 2 ^ (log2floorAux fuel (n / 2) + 1 + 1)
          = 2 * 2 ^ (log2floorAux fuel (n / 2) + 1) := by ring
      omega
    · rw [if_neg h]
      simpa using And.intro h1 (by omega)

theorem log2floor_spec (n : ℕ) (h : 1 ≤ n) :
    2 ^ log2floor n ≤ n ∧ n < 2 ^ (log2floor n + 1) :=
  log2floorAux_spec n n h le_rfl

theorem log2floor_unique (n k : ℕ) (h1 : 2 ^ k ≤ n) (h2 : n < 2 ^ (k + 1)) :
    log2floor n = k := by
  have hn : 1 ≤ n := le_trans Nat.one_le_two_pow h1
  obtain ⟨ha, hb⟩ := log2floor_spec n hn
  rcases lt_trichotomy (log2floor n) k with h | h | h
  · have hx : 2 ^ (log2floor n + 1) ≤ 2 ^ k :=
      Nat.pow_le_pow_right (by norm_num) (by omega)
    omega
  · exact h
  · have hx : 2 ^ (k + 1) ≤ 2 ^ log2floor n :=
      Nat.pow_le_pow_right (by norm_num) (by omega)
    omega

theorem rndNat_exact (a b : ℕ) (hb : 0 < b) (hdvd : b ∣ a) :
    rndNat a b = a / b := by
  have hr : a % b = 0 := Nat.mod_eq_zero_of_dvd hdvd
  simp only [rndNat, hr]
  rw [if_pos (by omega)]

/-- Brightness 255: the division `255 / 255` rounds to exactly 1. -/
theorem flRat_255_255 : flRat 255 255 = (2 ^ 52, -52) := by decide

theorem log2floor_pow52_mul (d : ℕ) (hd1 : 1 ≤ d) :
    log2floor (2 ^ 52 * d) = 52 + log2floor d := by
  obtain ⟨hka, hkb⟩ := log2floor_spec d hd1
  apply log2floor_unique
  · have h1 : (2 : ℕ) ^ (52 + log2floor d) = 2 ^ 52 * 2 ^ log2floor d := by ring
    rw [h1]
    exact Nat.mul_le_mul le_rfl hka
  · have h1 : (2 : ℕ) ^ (52 + log2floor d + 1) = 2 ^ 52 * 2 ^ (log2floor d + 1) := by
      ring
    rw [h1]
    exact mul_lt_mul_of_pos_left hkb (by positivity)

theorem log2floor_pow52 : log2floor (2 ^ 52) = 52 :=
  log2floor_unique _ _ le_rfl (Nat.pow_lt_pow_right (by norm_num) (by omega))

theorem fracExp_pow52_mul (d : ℕ) (hd1 : 1 ≤ d) :
    fracExp (2 ^ 52 * d) (2 ^ 52) = (log2floor d : ℤ) := by
  obtain ⟨hka, hkb⟩ := log2floor_spec d hd1
  have hok : (2 : ℕ) ^ 52 * 2 ^ ((log2floor d : ℤ)).toNat ≤ 2 ^ 52 * d := by
    rw [Int.toNat_natCast]
    exact Nat.mul_le_mul le_rfl hka
  simp only [fracExp, log2floor_pow52_mul d hd1, log2floor_pow52]
  have hc : ((52 + log2floor d : ℕ) : ℤ) - ((52 : ℕ) : ℤ) = (log2floor d : ℤ) := by
    push_cast
    ring
  rw [hc, if_pos (Int.natCast_nonneg _), if_pos (decide_eq_true hok)]

/-- A binary64 multiplication by an exactly representable integer factor
is exact: for `1 ≤ d < 2 ^ 53`, rounding `(2 ^ 52 * d) / 2 ^ 52` returns
`d` scaled into significand form. -/
theorem flRat_pow52_mul (d : ℕ) (hd1 : 1 ≤ d) (hd2 : d < 2 ^ 53) :
    flRat (2 ^ 52 * d) (2 ^ 52)
      = (d * 2 ^ (52 - log2floor d), (log2floor d : ℤ) - 52) := by
  obtain ⟨hka, hkb⟩ := log2floor_spec d hd1
  have hk52 : log2floor d ≤ 52 := by
    by_contra hcon
    have hx : 2 ^ 53 ≤ 2 ^ log2floor d := Nat.pow_le_pow_right (by norm_num) (by omega)
    omega
  have ha0 : ¬ (2 ^ 52 * d = 0) := by positivity
  simp only [flRat, fracExp_pow52_mul d hd1, if_neg ha0]
  rw [if_pos (by omega : (log2floor d : ℤ) ≤ 52)]
  have htn : ((52 : ℤ) - (log2floor d : ℤ)).toNat = 52 - log2floor d := by omega
  rw [htn]
  have hdvd : (2 ^ 52 : ℕ) ∣ 2 ^ 52 * d * 2 ^ (52 - log2floor d) :=
    ⟨d * 2 ^ (52 - log2floor d), by ring⟩
  rw [rndNat_exact _ _ (by positivity) hdvd, Nat.mul_assoc,
    Nat.mul_div_cancel_left _ (by positivity : (0:ℕ) < 2 ^ 52)]

/-- Exactness of `int((255 / 255) * d) = d` in binary64, for any `d` exactly
representable as a double (`d < 2 ^ 53`). -/
theorem lightDuration_255 (d : ℕ) (hd : d < 2 ^ 53) :
    lightDuration 255 d = d := by
  by_cases hd0 : d = 0
  · subst hd0; decide
  have hd1 : 1 ≤ d := by omega
  obtain ⟨hka, hkb⟩ := log2floor_spec d hd1
  have hk52 : log2floor d ≤ 52 := by
    by_contra hcon
    have hx : 2 ^ 53 ≤ 2 ^ log2floor d := Nat.pow_le_pow_right (by norm_num) (by omega)
    omega
  simp only [lightDuration, flRat_255_255]
  rw [if_neg (by norm_num : ¬ (0:ℤ) ≤ -52), if_neg (by norm_num : ¬ (0:ℤ) ≤ -52)]
  have hneg : ((-(-52 : ℤ))).toNat = 52 := by decide
  rw [hneg, flRat_pow52_mul d hd1 hd]
  by_cases hkeq : log2floor d = 52
  · rw [if_pos (by omega : (0:ℤ) ≤ (log2floor d : ℤ) - 52)]
    have h1 : 52 - log2floor d = 0 := by omega
    have h2 : (((log2floor d : ℤ) - 52)).toNat = 0 := by omega
    rw [h1, h2]
    simp
  · rw [if_neg (by omega : ¬ (0:ℤ) ≤ (log2floor d : ℤ) - 52)]
    have h2 : ((-((log2floor d : ℤ) - 52))).toNat = 52 - log2floor d := by omega
    rw [h2]
    exact Nat.mul_div_cancel _ (by positivity)

theorem flRat_zero (b : ℕ) : flRat 0 b = (0, 0) := by
  rw [flRat]
  exact if_pos rfl

/-- Brightness 0 always yields duration 0. -/
theorem lightDuration_0 (d : ℕ) : lightDuration 0 d = 0 := by
  simp [lightDuration, flRat_zero]

/-- An exception inside `_send_command` can never look like a success:
the `"ERR {e}"` string never starts with `OK`. -/
theorem pystartswith_err (m : String) :
    pystartswith (send_command (SocketOutcome.raised m)) "OK" = false := by
  have h : ('O' == 'E') = false := by decide
  have h2 : "ERR ".data = ['E', 'R', 'R', ' '] := rfl
  simp [pystartswith, send_command, String.data_append, h2, List.isPrefixOf, h]

/-- The rounding `roundHalfEvenInt` is within `1 / 2` of its argument. -/
theorem roundHalfEvenInt_close (q : ℚ) :
    |(roundHalfEvenInt q : ℚ) - q| ≤ 1 / 2 := by
  have hf : (⌊q⌋ : ℚ) ≤ q := Int.floor_le q
  have hc : q < (⌊q⌋ : ℚ) + 1 := Int.lt_floor_add_one q
  simp only [roundHalfEvenInt]
  split
  · rename_i hlt
    rw [abs_le]
    constructor <;> linarith
  · rename_i hge
    push_neg at hge
    split
    · rename_i hgt
      push_cast
      rw [abs_le]
      constructor <;> linarith
    · rename_i hle
      push_neg at hle
      have heq : q - (⌊q⌋ : ℚ) = 1 / 2 := le_antisymm hle hge
      split
      · rw [abs_le]
        constructor <;> linarith
      · push_cast
        rw [abs_le]
        constructor <;> linarith

theorem roundHalfEvenInt_intCast (z : ℤ) : roundHalfEvenInt (z : ℚ) = z := by
  simp only [roundHalfEvenInt, Int.floor_intCast]
  rw [if_pos (by norm_num)]

/-- The rounding `round1` is within `1 / 20` of its argument. -/
theorem round1_close (q : ℚ) : |round1 q - q| ≤ 1 / 20 := by
  have h := roundHalfEvenInt_close (q * 10)
  rw [round1]
  have h2 : (roundHalfEvenInt (q * 10) : ℚ) / 10 - q
      = ((roundHalfEvenInt (q * 10) : ℚ) - q * 10) / 10 := by ring
  rw [h2, abs_div]
  have h3 : |(10 : ℚ)| = 10 := by norm_num
  rw [h3]
  linarith

/-- The integer rounding `rndNat` is within `1 / 2` of the exact
fraction. -/
theorem rndNat_close (a b : ℕ) (hb : 0 < b) :
    |(rndNat a b : ℚ) - (a : ℚ) / (b : ℚ)| ≤ 1 / 2 := by
  have hrb : a % b < b := Nat.mod_lt a hb
  have hbQ : (0 : ℚ) < (b : ℚ) := by exact_mod_cast hb
  have hcast : (a : ℚ) = (b : ℚ) * ((a / b : ℕ) : ℚ) + ((a % b : ℕ) : ℚ) := by
    exact_mod_cast (Nat.div_add_mod a b).symm
  have hdiv : (a : ℚ) / (b : ℚ)
      = ((a / b : ℕ) : ℚ) + ((a % b : ℕ) : ℚ) / (b : ℚ) := by
    rw [hcast]
    field_simp
    ring
  have hr0 : (0 : ℚ) ≤ ((a % b : ℕ) : ℚ) / (b : ℚ) := by positivity
  have hrlt : ((a % b : ℕ) : ℚ) < (b : ℚ) := by exact_mod_cast hrb
  have hru : ((a % b : ℕ) : ℚ) / (b : ℚ) < 1 := (div_lt_one hbQ).mpr hrlt
  by_cases h1 : 2 * (a % b) < b
  · have h1Q : 2 * ((a % b : ℕ) : ℚ) < (b : ℚ) := by exact_mod_cast h1
    have hr2 : ((a % b : ℕ) : ℚ) / (b : ℚ) ≤ 1 / 2 := by
      rw [div_le_iff₀ hbQ]
      linarith
    simp only [rndNat, if_pos h1]
    rw [hdiv, abs_le]
    constructor <;> linarith
  · by_cases h2 : b < 2 * (a % b)
    · have h2Q : (b : ℚ) < 2 * ((a % b : ℕ) : ℚ) := by exact_mod_cast h2
      have hrl : 1 / 2 ≤ ((a % b : ℕ) : ℚ) / (b : ℚ) := by
        rw [le_div_iff₀ hbQ]
        linarith
      simp only [rndNat, if_neg h1, if_pos h2]
      rw [Nat.cast_add, Nat.cast_one, hdiv, abs_le]
      constructor <;> linarith
    · have h3 : 2 * (a % b) = b := by omega
      have h3Q : 2 * ((a % b : ℕ) : ℚ) = (b : ℚ) := by exact_mod_cast h3
      have hhalf : ((a % b : ℕ) : ℚ) / (b : ℚ) = 1 / 2 := by
        rw [div_eq_iff (ne_of_gt hbQ)]
        linarith
      by_cases h4 : (a / b) % 2 = 0
      · simp only [rndNat, if_neg h1, if_neg h2, if_pos h4]
        rw [hdiv, hhalf, abs_le]
        constructor <;> linarith
      · simp only [rndNat, if_neg h1, if_neg h2, if_neg h4]
        rw [Nat.cast_add, Nat.cast_one, hdiv, hhalf, abs_le]
        constructor <;> linarith

/-- The decimal Python `round(x, 1)` selects is within `1 / 20` of the
double being rounded. -/
theorem decTimes10_close (t : ℕ × ℤ) :
    |(decTimes10 t : ℚ) / 10 - dyadicToRat t| ≤ 1 / 20 := by
  by_cases hE : 0 ≤ t.2
  · simp only [decTimes10, if_pos hE, dyadicToRat]
    have hz : (2 : ℚ) ^ t.2 = (2 : ℚ) ^ t.2.toNat := by
      conv_lhs => rw [show t.2 = ((t.2.toNat : ℕ) : ℤ) from (Int.toNat_of_nonneg hE).symm]
      rw [zpow_natCast]
    rw [hz]
    have h0 : ((t.1 * 10 * 2 ^ t.2.toNat : ℕ) : ℚ) / 10
        - (t.1 : ℚ) * (2 : ℚ) ^ t.2.toNat = 0 := by
      push_cast
      ring
    rw [h0]
    norm_num
  · push_neg at hE
    simp only [decTimes10, dyadicToRat, if_neg (not_le.mpr hE)]
    have hm2 : t.2 = -(((-t.2).toNat : ℕ) : ℤ) := by omega
    have hb : (0 : ℕ) < 2 ^ (-t.2).toNat := by positivity
    have h := rndNat_close (t.1 * 10) (2 ^ (-t.2).toNat) hb
    have hz : (2 : ℚ) ^ t.2 = ((2 : ℚ) ^ (-t.2).toNat)⁻¹ := by
      conv_lhs => rw [hm2]
      rw [zpow_neg, zpow_natCast]
    rw [hz]
    have key : (rndNat (t.1 * 10) (2 ^ (-t.2).toNat) : ℚ) / 10
          - (t.1 : ℚ) * ((2 : ℚ) ^ (-t.2).toNat)⁻¹
        = ((rndNat (t.1 * 10) (2 ^ (-t.2).toNat) : ℚ)
            - ((t.1 * 10 : ℕ) : ℚ) / ((2 ^ (-t.2).toNat : ℕ) : ℚ)) / 10 := by
      push_cast
      have hne : ((2 : ℚ) ^ (-t.2).toNat) ≠ 0 := by positivity
      field_simp
      ring
    rw [key, abs_div]
    have habs10 : |(10 : ℚ)| = 10 := by norm_num
    rw [habs10]
    linarith

/-! ## Concrete states used to evaluate the claims -/

/-- A zone mid-run: 7 of 10 seconds left, countdown task 0 live. -/
def runningZone : IrrigationZone :=
  { zone := 3, default_duration := 300, is_on := true, remaining := 7,
    duration := 10, cancel_task := some 0, next_task := 1 }

/-- A zone mid-run with 6 seconds left. -/
def tickingZone : IrrigationZone :=
  { zone := 1, default_duration := 300, is_on := true, remaining := 6,
    duration := 10, cancel_task := some 0, next_task := 1 }

/-- A light mid-run: 6 of 10 seconds left. -/
def tickingLight : IrrigationZoneLight :=
  { zone := 2, default_duration := 60, token := none, is_on := true,
    remaining := 6, duration := 10, brightness := 153, tick_tasks := 1,
    auto_off_timers := 1 }

/-- An idle zone whose last run had duration 0. -/
def idleZeroZone : IrrigationZone :=
  { zone := 1, default_duration := 300, is_on := false, remaining := 9,
    duration := 0, cancel_task := none, next_task := 0 }

/-- A zone mid-run: 3 of 4 seconds left. -/
def quarterZone : IrrigationZone :=
  { zone := 1, default_duration := 300, is_on := true, remaining := 3,
    duration := 4, cancel_task := some 0, next_task := 1 }

/-- A zone mid-run: 3 of 2000 seconds left (exact percentage 0.15). -/
def pctTieZone : IrrigationZone :=
  { zone := 1, default_duration := 300, is_on := true, remaining := 3,
    duration := 2000, cancel_task := some 0, next_task := 1 }

/-- A zone mid-run: 1 of 2000 seconds left (exact percentage 0.05). -/
def pctHalfZone : IrrigationZone :=
  { zone := 1, default_duration := 300, is_on := true, remaining := 1,
    duration := 2000, cancel_task := some 0, next_task := 1 }

/-- A config-flow submission asking for zero zones. -/
def zeroZonesInput : FlowInput :=
  { name := none, host := "h", port := 4242, zones := some 0,
    default_duration := none }

/-! ## Claims -/

/-- Claim C1 (code bug, evaluated at the failing input): the spec requires at
most one live countdown per zone, with a start cancelling the previous
timer before installing a new one.  The light implementation
(`async_turn_on_with_duration`) cancels nothing: after two successful
starts on the same zone, two `_tick_remaining` tasks and two `_auto_off`
timers are live simultaneously — both decrement `remaining` and the
first run's auto-off fires during the second run. -/
theorem C1_light_double_start_two_countdowns :
    (((((IrrigationZoneLight.init 1 300 none).async_turn_on_with_duration 5
          (SocketOutcome.reply "OK")).1).async_turn_on_with_duration 5
          (SocketOutcome.reply "OK")).1.tick_tasks = 2)
    ∧ (((((IrrigationZoneLight.init 1 300 none).async_turn_on_with_duration 5
          (SocketOutcome.reply "OK")).1).async_turn_on_with_duration 5
          (SocketOutcome.reply "OK")).1.auto_off_timers = 2) := by
  decide

/-- Claim C2 (counterexample): the claim says stop sends `ZONE=z TIME=0` and
that a duration-0 start sends the same command as stop.  The switch
implementation's `turn_off` sends `ZONE=2 TIME=1`, while its duration-0
`turn_on` sends `ZONE=2 TIME=0` — the two wire commands differ. -/
theorem C2_switch_stop_sends_time1 :
    (((IrrigationZone.init 2 300).turn_off (SubprocessOutcome.completed 0 "OK" "")).2
        = ["ZONE=2 TIME=1"])
    ∧ (((IrrigationZone.init 2 300).turn_on (some 0)
          (SubprocessOutcome.completed 0 "OK" "")).2 = ["ZONE=2 TIME=0"])
    ∧ ("ZONE=2 TIME=1" : String) ≠ "ZONE=2 TIME=0" := by
  decide

/-- Claim C2 amended: the light implementation's stop sends
`ZONE=z TIME=0` (token-suffixed when configured), identical to the command
a duration-0 start sends; the switch implementation's stop sends
`ZONE=z TIME=1`, which differs from the `ZONE=z TIME=0` its duration-0
start sends. -/
theorem C2_amended_stop_wire_commands (l : IrrigationZoneLight)
    (net : SocketOutcome) (z : IrrigationZone) (out : SubprocessOutcome) :
    ((l.async_turn_off net).2 = [l.build_command l.zone 0])
    ∧ ((l.async_turn_on_with_duration 0 net).2 = [l.build_command l.zone 0])
    ∧ ((z.turn_off out).2 = [irrigationctl_cmd z.zone 1])
    ∧ ((z.turn_on (some 0) out).2 = [irrigationctl_cmd z.zone 0]) := by
  refine ⟨?_, ?_, ?_, ?_⟩
  · simp only [IrrigationZoneLight.async_turn_off]
    split <;> rfl
  · simp only [IrrigationZoneLight.async_turn_on_with_duration]
    split <;> rfl
  · simp only [IrrigationZone.turn_off]
    split <;> rfl
  · simp only [IrrigationZone.turn_on]
    split <;> rfl

/-- Claim C3 (counterexample): the claim says a failed stop still cancels the
local timer and forces `running=false, remaining=0`.  On a running switch
zone whose `irrigationctl` call raises, `turn_off` changes nothing: the
zone stays running with its countdown task alive. -/
theorem C3_failed_stop_changes_nothing :
    ((runningZone.turn_off (SubprocessOutcome.raised "timeout")).1.is_on = true)
    ∧ ((runningZone.turn_off (SubprocessOutcome.raised "timeout")).1.remaining = 7)
    ∧ ((runningZone.turn_off (SubprocessOutcome.raised "timeout")).1.cancel_task
        = some 0) := by
  decide

/-- Claim C3 amended: in both implementations a stop whose network command
fails leaves the local state entirely unchanged — the timer is not
cancelled and `running`/`remaining` keep their prior values; the failure
is only logged. -/
theorem C3_amended_failed_stop_is_noop (z : IrrigationZone)
    (out : SubprocessOutcome) (l : IrrigationZoneLight) (net : SocketOutcome) :
    (run_irrigationctl out = false → (z.turn_off out).1 = z)
    ∧ (pystartswith (send_command net) "OK" = false →
        (l.async_turn_off net).1 = l) := by
  constructor
  · intro h
    simp [IrrigationZone.turn_off, h]
  · intro h
    simp [IrrigationZoneLight.async_turn_off, h]

theorem C3_amended_failed_stop_is_noop_witness :
    (((IrrigationZone.init 3 300).turn_off (SubprocessOutcome.raised "boom")).1
        = IrrigationZone.init 3 300)
    ∧ (((IrrigationZoneLight.init 1 300 none).async_turn_off
          (SocketOutcome.raised "down")).1 = IrrigationZoneLight.init 1 300 none) :=
  ⟨(C3_amended_failed_stop_is_noop (IrrigationZone.init 3 300)
      (SubprocessOutcome.raised "boom") (IrrigationZoneLight.init 1 300 none)
      (SocketOutcome.raised "down")).1 (by decide),
   (C3_amended_failed_stop_is_noop (IrrigationZone.init 3 300)
      (SubprocessOutcome.raised "boom") (IrrigationZoneLight.init 1 300 none)
      (SocketOutcome.raised "down")).2 (by decide)⟩

/-- Claim C4: a start whose network command fails leaves the zone's
observable state (all fields: running, remaining, configured duration,
timer handle) exactly as before the call, in both implementations. -/
theorem C4_failed_start_no_state_change (z : IrrigationZone)
    (kw_duration : Option ℕ) (out : SubprocessOutcome)
    (l : IrrigationZoneLight) (duration : ℕ) (net : SocketOutcome) :
    (run_irrigationctl out = false → (z.turn_on kw_duration out).1 = z)
    ∧ (pystartswith (send_command net) "OK" = false →
        (l.async_turn_on_with_duration duration net).1 = l) := by
  constructor
  · intro h
    simp [IrrigationZone.turn_on, h]
  · intro h
    simp [IrrigationZoneLight.async_turn_on_with_duration, h]

theorem C4_failed_start_no_state_change_witness :
    (((IrrigationZone.init 5 300).turn_on (some 30)
        (SubprocessOutcome.completed 1 "" "daemon not running")).1
      = IrrigationZone.init 5 300)
    ∧ (((IrrigationZoneLight.init 5 300 none).async_turn_on_with_duration 30
          (SocketOutcome.reply "ERR busy")).1 = IrrigationZoneLight.init 5 300 none) :=
  ⟨(C4_failed_start_no_state_change (IrrigationZone.init 5 300) (some 30)
      (SubprocessOutcome.completed 1 "" "daemon not running")
      (IrrigationZoneLight.init 5 300 none) 30
      (SocketOutcome.reply "ERR busy")).1 (by decide),
   (C4_failed_start_no_state_change (IrrigationZone.init 5 300) (some 30)
      (SubprocessOutcome.completed 1 "" "daemon not running")
      (IrrigationZoneLight.init 5 300 none) 30
      (SocketOutcome.reply "ERR busy")).2 (by decide)⟩

/-- Claim C5 (counterexample): the claim says success is returned iff the
trimmed reply begins with `OK`.  The subprocess client of `switch.py`
classifies by exit code alone: a completed run with exit code 0 whose
output text is `FAIL` is reported as success although `FAIL` does not
begin with `OK`. -/
theorem C5_exit_code_success_without_ok :
    (run_irrigationctl (SubprocessOutcome.completed 0 "FAIL" "") = true)
    ∧ (pystartswith (pystrip "FAIL") "OK" = false) := by
  decide

/-- Claim C5 amended: the socket client of `light.py` yields success exactly
when the stripped reply begins with `OK`, and maps every raised exception
to an `"ERR ..."` string that can never begin with `OK` (no exception
escapes); the subprocess client of `switch.py` yields success iff the
process completed with exit code 0 — independent of any reply text — and
maps every raised exception to failure. -/
theorem C5_amended_client_classification (s m m2 : String) (rc : ℤ)
    (stdout stderr : String) :
    (pystartswith (send_command (SocketOutcome.reply s)) "OK"
        = pystartswith (pystrip s) "OK")
    ∧ (pystartswith (send_command (SocketOutcome.raised m)) "OK" = false)
    ∧ (run_irrigationctl (SubprocessOutcome.completed rc stdout stderr) = true
        ↔ rc = 0)
    ∧ (run_irrigationctl (SubprocessOutcome.raised m2) = false) := by
  refine ⟨rfl, pystartswith_err m, ?_, rfl⟩
  simp [run_irrigationctl]

/-- Claim C6: when the countdown ends, the off-transition is purely local in
both implementations: the switch countdown's loop exit marks the zone off
and clears the task handle, the light's `_auto_off` marks it off and
zeroes the countdown, and neither it nor any countdown tick sends a wire
command. -/
theorem C6_auto_off_is_local (z : IrrigationZone) (l : IrrigationZoneLight) :
    ((z.countdown_exit).2 = [])
    ∧ ((z.countdown_exit).1.is_on = false)
    ∧ ((z.countdown_exit).1.cancel_task = none)
    ∧ ((z.countdown_tick).2 = [])
    ∧ ((l.auto_off).2 = [])
    ∧ ((l.auto_off).1.is_on = false)
    ∧ (l.is_on = true → (l.auto_off).1.remaining = 0) := by
  refine ⟨rfl, rfl, rfl, ?_, ?_, ?_, ?_⟩
  · simp only [IrrigationZone.countdown_tick]
    split <;> rfl
  · simp only [IrrigationZoneLight.auto_off]
    split <;> rfl
  · cases hb : l.is_on <;> simp [IrrigationZoneLight.auto_off, hb]
  · intro h
    simp [IrrigationZoneLight.auto_off, h]

theorem C6_auto_off_is_local_witness :
    (((IrrigationZone.init 4 60).countdown_exit).2 = [])
    ∧ ((tickingLight.auto_off).1.remaining = 0) :=
  ⟨(C6_auto_off_is_local (IrrigationZone.init 4 60) tickingLight).1,
   (C6_auto_off_is_local (IrrigationZone.init 4 60) tickingLight).2.2.2.2.2.2
      (by decide)⟩

/-- Claim C7 (counterexample): the claim says updated state is pushed on
every countdown tick.  The switch countdown pushes only when the new
remaining is a multiple of 5 or zero: ticking from `remaining = 7`
decrements to 6 and pushes nothing. -/
theorem C7_switch_tick_without_push :
    ((runningZone.countdown_tick).1.1.remaining = 6)
    ∧ ((runningZone.countdown_tick).1.2 = false) := by
  decide

/-- Claim C7 amended: both countdowns decrement `remaining` by exactly 1 per
tick; the light implementation pushes a state update on every tick, but
the switch implementation pushes only on ticks where the new remaining is
a multiple of 5 or has reached 0. -/
theorem C7_amended_tick_behaviour (z : IrrigationZone) (l : IrrigationZoneLight) :
    (0 < z.remaining →
      ((z.countdown_tick).1.1.remaining = z.remaining - 1)
      ∧ ((z.countdown_tick).1.2
          = (((z.remaining - 1) % 5 == 0) || ((z.remaining - 1) == 0))))
    ∧ (0 < l.remaining → l.is_on = true →
      ((l.tick).1.1.remaining = l.remaining - 1) ∧ ((l.tick).1.2 = true)) := by
  constructor
  · intro h
    simp [IrrigationZone.countdown_tick, h]
  · intro h hb
    simp [IrrigationZoneLight.tick, h, hb]

theorem C7_amended_tick_behaviour_witness :
    (((tickingZone.countdown_tick).1.1.remaining = tickingZone.remaining - 1)
      ∧ ((tickingZone.countdown_tick).1.2
          = (((tickingZone.remaining - 1) % 5 == 0)
              || ((tickingZone.remaining - 1) == 0))))
    ∧ (((tickingLight.tick).1.1.remaining = tickingLight.remaining - 1)
      ∧ ((tickingLight.tick).1.2 = true)) :=
  ⟨(C7_amended_tick_behaviour tickingZone tickingLight).1 (by decide),
   (C7_amended_tick_behaviour tickingZone tickingLight).2 (by decide) (by decide)⟩

/-- Claim C8 (counterexample): the claim says a zone count below 1 fails with
`InvalidConfig` at construction time.  The config flow performs no
validation: submitting `zones = 0` creates the entry, and setup then
builds an empty zone list without any error. -/
theorem C8_zone_count_zero_accepted :
    (async_step_user (some zeroZonesInput)
      = FlowResult.create_entry "Irrigation Controller"
          { name := "Irrigation Controller", host := "h", port := 4242,
            zones := 0, default_duration := 300 })
    ∧ (setup_zone_numbers 0 = []) := by
  constructor
  · rfl
  · rfl

/-- Claim C8 amended: the config flow accepts every submitted input and
always creates an entry (there is no `InvalidConfig` path); setup then
builds controllers for zone numbers `1..N`, which are unique by
construction, and a zone count below 1 silently yields an empty zone
list rather than an error. -/
theorem C8_amended_no_validation (u : FlowInput) (n : ℤ) :
    (∃ t e, async_step_user (some u) = FlowResult.create_entry t e)
    ∧ (setup_zone_numbers n).Nodup
    ∧ (n < 1 → setup_zone_numbers n = []) := by
  refine ⟨⟨_, _, rfl⟩, ?_, ?_⟩
  · rw [setup_zone_numbers]
    refine (List.nodup_range _).map ?_
    intro a b hab
    have h2 : (a : ℤ) + 1 = (b : ℤ) + 1 := hab
    omega
  · intro h
    have hz : n.toNat = 0 := by omega
    simp [setup_zone_numbers, hz]

theorem C8_amended_no_validation_witness :
    (∃ t e, async_step_user (some zeroZonesInput) = FlowResult.create_entry t e)
    ∧ (setup_zone_numbers 0).Nodup
    ∧ (setup_zone_numbers 0 = []) :=
  ⟨(C8_amended_no_validation zeroZonesInput 0).1,
   (C8_amended_no_validation zeroZonesInput 0).2.1,
   (C8_amended_no_validation zeroZonesInput 0).2.2 (by decide)⟩

/-- Claim C9 (counterexample): the claim says `progress_percent` equals
`remaining / duration * 100` rounded to one decimal place.  The code
rounds the binary64 percentage, not the exact one.  At
`remaining = 3, duration = 2000` the double percentage is
0.1499999999999999944…, so the code reports the double 0.1
(`flRat 1 10`), while the exact percentage 0.15 rounds to 0.2 — under
ties-to-even and ties-up alike.  At `remaining = 1, duration = 2000` the
double percentage is 0.05000000000000000277…, so the code again reports
0.1 while exact ties-to-even rounding of 0.05 gives 0.  In both cases the
reported value differs from the claimed one. -/
theorem C9_float_round_differs_from_exact :
    ((IrrigationZoneSensor.extra_state_attributes pctTieZone).progress_percent
        = flRat 1 10)
    ∧ (round1 ((pctTieZone.remaining : ℚ) / (pctTieZone.duration : ℚ) * 100)
        = 1 / 5)
    ∧ (dyadicToRat (flRat 1 10) ≠ 1 / 5)
    ∧ ((IrrigationZoneSensor.extra_state_attributes pctHalfZone).progress_percent
        = flRat 1 10)
    ∧ (round1 ((pctHalfZone.remaining : ℚ) / (pctHalfZone.duration : ℚ) * 100)
        = 0)
    ∧ (dyadicToRat (flRat 1 10) ≠ 0) := by
  have hpair : flRat 1 10 = (7205759403792794, -56) := by decide
  have hval : dyadicToRat (flRat 1 10) = (7205759403792794 : ℚ) / 2 ^ 56 := by
    rw [hpair, dyadicToRat]
    norm_num
  refine ⟨by decide, ?_, ?_, by decide, ?_, ?_⟩
  · have harg : (pctTieZone.remaining : ℚ) / (pctTieZone.duration : ℚ) * 100
        = 3 / 20 := by
      norm_num [pctTieZone]
    have hfloor : ⌊(3 / 2 : ℚ)⌋ = 1 := by
      rw [Int.floor_eq_iff]
      constructor <;> norm_num
    rw [harg, round1, show ((3 : ℚ) / 20 * 10) = 3 / 2 by norm_num]
    simp only [roundHalfEvenInt, hfloor]
    rw [if_neg (by norm_num), if_neg (by norm_num), if_neg (by decide)]
    norm_num
  · rw [hval]
    norm_num
  · have harg : (pctHalfZone.remaining : ℚ) / (pctHalfZone.duration : ℚ) * 100
        = 1 / 20 := by
      norm_num [pctHalfZone]
    have hfloor : ⌊(1 / 2 : ℚ)⌋ = 0 := by
      rw [Int.floor_eq_iff]
      constructor <;> norm_num
    rw [harg, round1, show ((1 : ℚ) / 20 * 10) = 1 / 2 by norm_num]
    simp only [roundHalfEvenInt, hfloor]
    rw [if_neg (by norm_num), if_neg (by norm_num), if_pos (by decide)]
    norm_num
  · rw [hval]
    norm_num

/-- Claim C9 amended: the sensor computes the percentage in binary64 —
`pct = fl(fl(rem / dur) * 100)` when `duration > 0`, and exactly 0 when
`duration = 0`, so the division is never evaluated with a zero duration —
and reports Python `round(pct, 1)`: the double nearest to `k / 10`, where
`k` is the integer nearest to ten times the double percentage (so `k / 10`
is within `1 / 20` of the double percentage, though it may differ from the
exact percentage rounded to one decimal place). -/
theorem C9_amended_progress_percent (z : IrrigationZone) :
    (z.duration = 0 →
      (IrrigationZoneSensor.extra_state_attributes z).progress_percent = (0, 0))
    ∧ (0 < z.duration →
      ((IrrigationZoneSensor.extra_state_attributes z).progress_percent
          = pyround1 (flMulNat (flRat z.remaining z.duration) 100))
      ∧ (∃ k : ℕ,
          (IrrigationZoneSensor.extra_state_attributes z).progress_percent
            = flRat k 10
          ∧ |(k : ℚ) / 10
              - dyadicToRat (flMulNat (flRat z.remaining z.duration) 100)|
            ≤ 1 / 20)) := by
  constructor
  · intro h
    have h0 : ¬ 0 < z.duration := by omega
    simp only [IrrigationZoneSensor.extra_state_attributes, if_neg h0]
    decide
  · intro h
    refine ⟨?_, decTimes10 (flMulNat (flRat z.remaining z.duration) 100), ?_, ?_⟩
    · simp only [IrrigationZoneSensor.extra_state_attributes, if_pos h]
    · simp only [IrrigationZoneSensor.extra_state_attributes, if_pos h, pyround1]
    · exact decTimes10_close _

theorem C9_amended_progress_percent_witness :
    ((IrrigationZoneSensor.extra_state_attributes idleZeroZone).progress_percent
        = (0, 0))
    ∧ (((IrrigationZoneSensor.extra_state_attributes quarterZone).progress_percent
          = pyround1 (flMulNat (flRat quarterZone.remaining quarterZone.duration) 100))
      ∧ (∃ k : ℕ,
          (IrrigationZoneSensor.extra_state_attributes quarterZone).progress_percent
            = flRat k 10
          ∧ |(k : ℚ) / 10
              - dyadicToRat
                  (flMulNat (flRat quarterZone.remaining quarterZone.duration) 100)|
            ≤ 1 / 20)) :=
  ⟨(C9_amended_progress_percent idleZeroZone).1 rfl,
   (C9_amended_progress_percent quarterZone).2 (by decide)⟩

/-- Claim C10 (counterexample): the claim says brightness `b` runs the zone
for `floor(b / 255 * default_duration)` seconds.  The code computes the
duration in binary64: at brightness 187 with default duration 300 the
double product is 219.999…, so `int()` yields 219, one second short of
`floor(187 * 300 / 255) = 220`. -/
theorem C10_brightness_187_not_floor :
    (lightDuration 187 300 = 219) ∧ (187 * 300 / 255 = 220)
    ∧ ((219 : ℕ) ≠ 220) := by
  decide

/-- Claim C10 amended: an unspecified brightness defaults to 255; the run
duration is `int((b / 255) * default_duration)` evaluated in binary64
(which can fall one below the exact floor); brightness 255 yields exactly
the configured default duration whenever it is exactly representable
(`d < 2 ^ 53`); brightness 0 yields duration 0 and sends the same
`TIME=0` wire command that `async_turn_off` sends. -/
theorem C10_amended_brightness_semantics (l : IrrigationZoneLight)
    (net : SocketOutcome) (d : ℕ) :
    (l.async_turn_on none net = l.async_turn_on (some 255) net)
    ∧ (d < 2 ^ 53 → lightDuration 255 d = d)
    ∧ (lightDuration 0 d = 0)
    ∧ ((l.async_turn_on (some 0) net).2 = (l.async_turn_off net).2) := by
  refine ⟨rfl, fun h => lightDuration_255 d h, lightDuration_0 d, ?_⟩
  simp only [IrrigationZoneLight.async_turn_on, lightDuration_0, Option.getD,
    IrrigationZoneLight.async_turn_on_with_duration, IrrigationZoneLight.async_turn_off]
  cases hc : pystartswith (send_command net) "OK" <;> simp [hc]

theorem C10_amended_brightness_semantics_witness :
    ((300 : ℕ) < 2 ^ 53) ∧ (lightDuration 255 300 = 300) :=
  ⟨by norm_num,
   ((C10_amended_brightness_semantics (IrrigationZoneLight.init 1 300 none)
      (SocketOutcome.reply "OK") 300).2.1 (by norm_num))⟩
